import Mathlib

/-!
Verification of the reset orchestrator `composite_services/manage_game/app.py`
(Pixel Dungeon Adventure).

The service exposes two Flask endpoints:
  * `POST /game/reset/<player_id>`       — `reset_character_progress` (partial reset)
  * `POST /game/full-reset/<player_id>`  — `full_game_reset` (full reset)

We shallow-embed each handler as a pure function of the player id and a
"world": the outcome of every outbound collaborator call the handler may
make (an HTTP response with status and body text, or a raised exception such
as a timeout or transport error), plus whether the RabbitMQ audit publish
fails.  Each handler returns its HTTP response together with the ordered
list of outbound events it performed, so that claims about which
collaborators are contacted can be stated and proved.
-/

/-- Outcome of one outbound `requests.*` call: either an HTTP response with a
status code and body text, or a raised exception (timeout, connection error,
...) carrying its message. -/
inductive CallOutcome where
  | response (status : Nat) (text : String)
  | exn (msg : String)
deriving Repr, DecidableEq

/-- Outbound effects the orchestrator can perform, in order: HTTP calls to the
collaborator services and the RabbitMQ audit publish. -/
inductive Event where
  | getPlayer (playerId : Nat)
  | putPlayer (playerId : Nat)
  | deleteInventory (playerId : Nat)
  | postInteractionReset (playerId : Nat)
  | putRoom (roomId : Nat)
  | getEnemyReset
  | publishAudit (playerId : Nat) (action : String)
deriving Repr, DecidableEq

/-- `send_activity_log` (app.py lines 24-43): tries to publish one audit
message; any exception (connection, queue declare, publish) is caught and
only logged.  We model it by its outbound events: the publish event happens
exactly when the publish does not fail, and a failure is swallowed. -/
def send_activity_log (playerId : Nat) (action : String) (publishFails : Bool) :
    List Event :=
  if publishFails then [] else [Event.publishAudit playerId action]

/-- The `reset_results` dictionary built by `full_game_reset`
(app.py lines 79-84): its keys are exactly `player`, `inventory`, `rooms`,
`errors`, fixed by this structure. -/
structure ResetDetails where
  player : Bool
  inventory : Bool
  rooms : Bool
  errors : List String
deriving Repr, DecidableEq

/-- Responses `full_game_reset` can produce: the 404 player-not-found body,
a 200/207 report `{message, player_id, reset_details}`, or the 500 body from
the outer `except` (app.py lines 210-215). -/
inductive FullResetResponse where
  | notFound
  | report (status : Nat) (message : String) (playerId : Nat) (details : ResetDetails)
  | serverError (message : String) (details : ResetDetails)
deriving Repr, DecidableEq

/-- HTTP status code of a `full_game_reset` response. -/
def FullResetResponse.statusCode : FullResetResponse → Nat
  | .notFound => 404
  | .report s _ _ _ => s
  | .serverError _ _ => 500

/-- The `reset_details` object carried by a `full_game_reset` response body
(absent from the 404 body). -/
def FullResetResponse.detailsOf : FullResetResponse → Option ResetDetails
  | .notFound => none
  | .report _ _ _ d => some d
  | .serverError _ d => some d

/-- Responses `reset_character_progress` can produce: the 404 body, the 200
success message, or an exception escaping the handler (the player update,
the enemy reset and the initial lookup are not wrapped in any `try`). -/
inductive PartialResetResponse where
  | notFound
  | ok (message : String)
  | unhandled (msg : String)
deriving Repr, DecidableEq

/-- World of a full-reset request: the outcome of each outbound call the
handler may make, the player name read from the lookup body, and whether the
audit publish fails. -/
structure FullResetWorld where
  playerLookup : CallOutcome
  playerName : String
  playerUpdate : CallOutcome
  inventoryDelete : CallOutcome
  interactionReset : CallOutcome
  roomUpdate : Nat → CallOutcome
  auditFails : Bool

/-- World of a partial-reset request. -/
structure PartialResetWorld where
  playerLookup : CallOutcome
  playerUpdate : CallOutcome
  enemyReset : CallOutcome
  auditFails : Bool

/-- Step 2 of `full_game_reset` (app.py lines 100-114): `PUT player/{id}`;
200 sets the `player` flag, any other status or an exception appends an
error message. -/
def stepPlayerReset : CallOutcome → Bool × List String
  | .response 200 _ => (true, [])
  | .response _ t => (false, ["Player reset failed: " ++ t])
  | .exn m => (false, ["Player reset error: " ++ m])

/-- Step 3 of `full_game_reset` (app.py lines 116-130): `DELETE
inventory/player/{id}`; status 200 or 404 sets the `inventory` flag (404 is
acceptable when the player holds no inventory), anything else or an
exception appends an error message. -/
def stepInventoryReset : CallOutcome → Bool × List String
  | .response s t =>
      if s = 200 ∨ s = 404 then (true, [])
      else (false, ["Inventory reset failed: " ++ t])
  | .exn m => (false, ["Inventory reset error: " ++ m])

/-- Step 3.5 of `full_game_reset` (app.py lines 132-147): `POST
player/{id}/reset` on the interaction-history service; no flag in
`reset_results` is set either way, a non-200 status or an exception only
appends an error message. -/
def stepInteractionReset : CallOutcome → List String
  | .response 200 _ => []
  | .response _ t => ["Player interaction reset failed: " ++ t]
  | .exn m => ["Player interaction reset error: " ++ m]

/-- One entry of the hard-coded `room_defaults` list (app.py lines 154-158). -/
structure RoomDefault where
  room_id : Nat
  item_ids : List Nat
  enemy_ids : List Nat
  door_locked : Bool
deriving Repr, DecidableEq

/-- The three configured default rooms (app.py lines 154-158). -/
def room_defaults : List RoomDefault :=
  [ { room_id := 1, item_ids := [1, 2], enemy_ids := [], door_locked := false },
    { room_id := 2, item_ids := [3, 5], enemy_ids := [1], door_locked := false },
    { room_id := 3, item_ids := [4], enemy_ids := [2], door_locked := true } ]

/-- One iteration of the room loop (app.py lines 161-176): `PUT room/{id}`;
a non-200 status or an exception clears the loop's success flag and appends
a room-specific error message. -/
def resetOneRoom (roomId : Nat) : CallOutcome → Bool × List String
  | .response 200 _ => (true, [])
  | .response _ t =>
      (false, ["Room " ++ toString roomId ++ " reset failed: " ++ t])
  | .exn m =>
      (false, ["Room " ++ toString roomId ++ " reset error: " ++ m])

/-- Step 4 of `full_game_reset` (app.py lines 152-183): loop over
`room_defaults`, starting from `room_update_success = True`, each room's
failure clearing the flag and appending its own error. -/
def stepRoomsReset (roomCall : Nat → CallOutcome) : Bool × List String :=
  room_defaults.foldl
    (fun acc rd =>
      let r := resetOneRoom rd.room_id (roomCall rd.room_id)
      (acc.1 && r.1, acc.2 ++ r.2))
    (true, [])

/-- The `reset_results` dictionary as it stands at finalization time
(app.py lines 79-183): the `player`, `inventory` and `rooms` flags come from
their steps, the interaction-history step sets no flag, and `errors` holds
the step error messages in execution order. -/
def fullResetDetails (w : FullResetWorld) : ResetDetails :=
  { player := (stepPlayerReset w.playerUpdate).1,
    inventory := (stepInventoryReset w.inventoryDelete).1,
    rooms := (stepRoomsReset w.roomUpdate).1,
    errors := (stepPlayerReset w.playerUpdate).2
      ++ (stepInventoryReset w.inventoryDelete).2
      ++ stepInteractionReset w.interactionReset
      ++ (stepRoomsReset w.roomUpdate).2 }

/-- The outbound calls a full reset performs once the player lookup returned
200: the four steps in order, one room update per configured room, then the
audit publish. -/
def fullResetEvents (playerId : Nat) (w : FullResetWorld) : List Event :=
  [Event.getPlayer playerId, Event.putPlayer playerId,
   Event.deleteInventory playerId, Event.postInteractionReset playerId]
  ++ room_defaults.map (fun rd => Event.putRoom rd.room_id)
  ++ send_activity_log playerId
      ("Full game reset performed for " ++ w.playerName) w.auditFails

/-- `full_game_reset` (app.py lines 72-215).  The player lookup raising is
caught by the outer `try` and produces the 500 body; a non-200 lookup status
returns the 404 body at once; otherwise the four steps run in order (each in
its own `try`), the audit log is sent, `overall_success` is the conjunction
of the `player`, `inventory` and `rooms` flags (app.py lines 188-193), and
the response is 200 on overall success and 207 otherwise, both carrying
`reset_details`. -/
def full_game_reset (playerId : Nat) (w : FullResetWorld) :
    FullResetResponse × List Event :=
  match w.playerLookup with
  | .exn m =>
      (FullResetResponse.serverError ("Failed to reset game: " ++ m)
        { player := false, inventory := false, rooms := false, errors := [] },
       [Event.getPlayer playerId])
  | .response s _ =>
      if s = 200 then
        let details := fullResetDetails w
        let events := fullResetEvents playerId w
        if details.player && details.inventory && details.rooms then
          (FullResetResponse.report 200
            ("Game fully reset for " ++ w.playerName) playerId details, events)
        else
          (FullResetResponse.report 207
            ("Game partially reset for " ++ w.playerName ++ " - some errors occurred")
            playerId details, events)
      else
        (FullResetResponse.notFound, [Event.getPlayer playerId])

/-- `reset_character_progress` (app.py lines 45-70).  None of the three
outbound calls is wrapped in a `try`: an exception from the lookup, the
player update or the enemy reset escapes the handler.  A non-200 lookup
status returns the 404 body; the statuses of the player update and of the
enemy reset are never inspected; then the audit log is sent and the 200
success message returned. -/
def reset_character_progress (playerId : Nat) (w : PartialResetWorld) :
    PartialResetResponse × List Event :=
  match w.playerLookup with
  | .exn m => (PartialResetResponse.unhandled m, [Event.getPlayer playerId])
  | .response s _ =>
      if s = 200 then
        match w.playerUpdate with
        | .exn m =>
            (PartialResetResponse.unhandled m,
             [Event.getPlayer playerId, Event.putPlayer playerId])
        | .response _ _ =>
            match w.enemyReset with
            | .exn m =>
                (PartialResetResponse.unhandled m,
                 [Event.getPlayer playerId, Event.putPlayer playerId,
                  Event.getEnemyReset])
            | .response _ _ =>
                (PartialResetResponse.ok
                  ("Progress reset for player " ++ toString playerId ++ "."),
                 [Event.getPlayer playerId, Event.putPlayer playerId,
                  Event.getEnemyReset]
                 ++ send_activity_log playerId "Game progress reset" w.auditFails)
      else
        (PartialResetResponse.notFound, [Event.getPlayer playerId])

/-! ### Concrete worlds used by witnesses and counterexamples -/

/-- Full-reset world in which every collaborator call succeeds. -/
def wAllOk : FullResetWorld :=
  { playerLookup := CallOutcome.response 200 "", playerName := "Hero",
    playerUpdate := CallOutcome.response 200 "",
    inventoryDelete := CallOutcome.response 200 "",
    interactionReset := CallOutcome.response 200 "",
    roomUpdate := fun _ => CallOutcome.response 200 "",
    auditFails := false }

/-- Like `wAllOk`, but the interaction-history reset returns status 500. -/
def wInterFail : FullResetWorld :=
  { wAllOk with interactionReset := CallOutcome.response 500 "boom" }

/-- Like `wAllOk`, but the player-lookup returns status 404. -/
def wNotFound : FullResetWorld :=
  { wAllOk with playerLookup := CallOutcome.response 404 "" }

/-- Like `wAllOk`, but the player-update call raises (e.g. a timeout). -/
def wPlayerExn : FullResetWorld :=
  { wAllOk with playerUpdate := CallOutcome.exn "timed out" }

/-- Like `wAllOk`, but the inventory delete returns status 404. -/
def wInvMissing : FullResetWorld :=
  { wAllOk with inventoryDelete := CallOutcome.response 404 "no inventory" }

/-- Like `wAllOk`, but the update of room 2 raises while rooms 1 and 3
succeed. -/
def wRoom2Fail : FullResetWorld :=
  { wAllOk with roomUpdate := fun rid =>
      if rid = 2 then CallOutcome.exn "timed out" else CallOutcome.response 200 "" }

/-- Partial-reset world in which every collaborator call succeeds. -/
def pAllOk : PartialResetWorld :=
  { playerLookup := CallOutcome.response 200 "",
    playerUpdate := CallOutcome.response 200 "",
    enemyReset := CallOutcome.response 200 "",
    auditFails := false }

/-- Like `pAllOk`, but the player-lookup returns status 404. -/
def pNotFound : PartialResetWorld :=
  { pAllOk with playerLookup := CallOutcome.response 404 "" }

/-- Like `pAllOk`, but the player update raises (e.g. a timeout). -/
def pUpdateExn : PartialResetWorld :=
  { pAllOk with playerUpdate := CallOutcome.exn "timed out" }

/-- Like `pAllOk`, but the enemy reset raises a transport error. -/
def pEnemyExn : PartialResetWorld :=
  { pAllOk with enemyReset := CallOutcome.exn "connection refused" }

/-- Like `pAllOk`, but the player update and the enemy reset both return
status 500. -/
def pBadStatuses : PartialResetWorld :=
  { pAllOk with
      playerUpdate := CallOutcome.response 500 "fail"
      enemyReset := CallOutcome.response 500 "fail" }

/-! ### Unfolding lemmas -/

/-- When the player lookup returns status 200, `full_game_reset` reaches
finalization: it produces a 200 or 207 report built from `fullResetDetails`
and performs exactly the calls in `fullResetEvents`. -/
lemma full_game_reset_ok (playerId : Nat) (w : FullResetWorld) (t : String)
    (h : w.playerLookup = CallOutcome.response 200 t) :
    full_game_reset playerId w =
      (if (fullResetDetails w).player && (fullResetDetails w).inventory
          && (fullResetDetails w).rooms then
        FullResetResponse.report 200 ("Game fully reset for " ++ w.playerName)
          playerId (fullResetDetails w)
       else
        FullResetResponse.report 207
          ("Game partially reset for " ++ w.playerName ++ " - some errors occurred")
          playerId (fullResetDetails w),
       fullResetEvents playerId w) := by
  rw [full_game_reset, h]
  by_cases hc : (fullResetDetails w).player && (fullResetDetails w).inventory
      && (fullResetDetails w).rooms <;> simp [hc]

/-- The room loop unrolled: the loop flag is the conjunction of the three
per-room outcomes and the loop errors are the three per-room error lists in
order, each depending only on its own room's call. -/
lemma stepRoomsReset_eq (f : Nat → CallOutcome) :
    stepRoomsReset f =
      ((resetOneRoom 1 (f 1)).1 && (resetOneRoom 2 (f 2)).1 && (resetOneRoom 3 (f 3)).1,
       (resetOneRoom 1 (f 1)).2 ++ (resetOneRoom 2 (f 2)).2 ++ (resetOneRoom 3 (f 3)).2) :=
  rfl

/-- Membership in the full-reset event trace, spelled out. -/
lemma mem_fullResetEvents (playerId : Nat) (w : FullResetWorld) (e : Event) :
    e ∈ fullResetEvents playerId w ↔
      e = Event.getPlayer playerId ∨ e = Event.putPlayer playerId ∨
      e = Event.deleteInventory playerId ∨ e = Event.postInteractionReset playerId ∨
      e = Event.putRoom 1 ∨ e = Event.putRoom 2 ∨ e = Event.putRoom 3 ∨
      (w.auditFails = false ∧
        e = Event.publishAudit playerId
          ("Full game reset performed for " ++ w.playerName)) := by
  cases hb : w.auditFails <;>
    simp [fullResetEvents, room_defaults, send_activity_log, hb]

/-- Claim C1 (amended): once the player lookup returns 200, the full reset's
HTTP status is 200 exactly when the `player`, `inventory` and `rooms` flags
are all true, and 207 otherwise; the `errors` list is not consulted. -/
theorem C1_overall_status_from_flags (playerId : Nat) (w : FullResetWorld)
    (t : String) (h : w.playerLookup = CallOutcome.response 200 t) :
    (full_game_reset playerId w).1.detailsOf = some (fullResetDetails w) ∧
    ((full_game_reset playerId w).1.statusCode = 200 ↔
      (fullResetDetails w).player = true ∧ (fullResetDetails w).inventory = true ∧
      (fullResetDetails w).rooms = true) ∧
    ((full_game_reset playerId w).1.statusCode = 207 ↔
      ¬((fullResetDetails w).player = true ∧ (fullResetDetails w).inventory = true ∧
        (fullResetDetails w).rooms = true)) := by
  rw [full_game_reset_ok playerId w t h]
  cases hcp : (fullResetDetails w).player <;>
    cases hci : (fullResetDetails w).inventory <;>
      cases hcr : (fullResetDetails w).rooms <;>
        simp [hcp, hci, hcr, FullResetResponse.statusCode, FullResetResponse.detailsOf]

/-- Claim C1, witness: the theorem applied to the all-success world. -/
theorem C1_overall_status_from_flags_witness :
    wAllOk.playerLookup = CallOutcome.response 200 "" ∧
    ((full_game_reset 1 wAllOk).1.detailsOf = some (fullResetDetails wAllOk) ∧
     ((full_game_reset 1 wAllOk).1.statusCode = 200 ↔
       (fullResetDetails wAllOk).player = true ∧
       (fullResetDetails wAllOk).inventory = true ∧
       (fullResetDetails wAllOk).rooms = true) ∧
     ((full_game_reset 1 wAllOk).1.statusCode = 207 ↔
       ¬((fullResetDetails wAllOk).player = true ∧
         (fullResetDetails wAllOk).inventory = true ∧
         (fullResetDetails wAllOk).rooms = true))) :=
  ⟨rfl, C1_overall_status_from_flags 1 wAllOk "" rfl⟩

/-- Claim C1, counterexample to the claim as stated: when only the
interaction-history step fails, all three flags are true but `errors` is
non-empty, and the code still answers 200 — the claim demands 207 whenever
`errors` is non-empty. -/
theorem C1_counterexample :
    (full_game_reset 1 wInterFail).1.statusCode = 200 ∧
    (full_game_reset 1 wInterFail).1.detailsOf =
      some { player := true, inventory := true, rooms := true,
             errors := ["Player interaction reset failed: boom"] } :=
  ⟨rfl, rfl⟩

/-- Claim C2: on a non-200 player lookup, both endpoints return the 404
not-found result at once: the only outbound event is the player lookup
itself — no mutating call, no audit publish. -/
theorem C2_player_not_found_short_circuits (playerId : Nat)
    (w : FullResetWorld) (p : PartialResetWorld) (s1 s2 : Nat) (t1 t2 : String)
    (hw : w.playerLookup = CallOutcome.response s1 t1) (hs1 : s1 ≠ 200)
    (hp : p.playerLookup = CallOutcome.response s2 t2) (hs2 : s2 ≠ 200) :
    full_game_reset playerId w =
      (FullResetResponse.notFound, [Event.getPlayer playerId]) ∧
    reset_character_progress playerId p =
      (PartialResetResponse.notFound, [Event.getPlayer playerId]) := by
  constructor
  · rw [full_game_reset, hw]; simp [hs1]
  · rw [reset_character_progress, hp]; simp [hs2]

/-- Claim C2, witness: the theorem applied to worlds whose lookup answers
404. -/
theorem C2_player_not_found_short_circuits_witness :
    wNotFound.playerLookup = CallOutcome.response 404 "" ∧ (404 : Nat) ≠ 200 ∧
    pNotFound.playerLookup = CallOutcome.response 404 "" ∧
    (full_game_reset 1 wNotFound =
       (FullResetResponse.notFound, [Event.getPlayer 1]) ∧
     reset_character_progress 1 pNotFound =
       (PartialResetResponse.notFound, [Event.getPlayer 1])) :=
  ⟨rfl, by decide, rfl,
   C2_player_not_found_short_circuits 1 wNotFound pNotFound 404 404 "" ""
     rfl (by decide) rfl (by decide)⟩

/-- Claim C3: once the player lookup returns 200, every step of the full
plan is attempted — player update, inventory delete, interaction reset and
all three room updates — whatever each step's outcome, and the request
reaches finalization, producing a report. -/
theorem C3_no_step_halts_the_plan (playerId : Nat) (w : FullResetWorld)
    (t : String) (h : w.playerLookup = CallOutcome.response 200 t) :
    Event.putPlayer playerId ∈ (full_game_reset playerId w).2 ∧
    Event.deleteInventory playerId ∈ (full_game_reset playerId w).2 ∧
    Event.postInteractionReset playerId ∈ (full_game_reset playerId w).2 ∧
    (∀ rd ∈ room_defaults, Event.putRoom rd.room_id ∈ (full_game_reset playerId w).2) ∧
    ∃ st msg d, (full_game_reset playerId w).1 =
      FullResetResponse.report st msg playerId d := by
  rw [full_game_reset_ok playerId w t h]
  refine ⟨?_, ?_, ?_, ?_, ?_⟩
  · simp [mem_fullResetEvents]
  · simp [mem_fullResetEvents]
  · simp [mem_fullResetEvents]
  · intro rd hrd
    simp only [room_defaults, List.mem_cons, List.not_mem_nil, or_false] at hrd
    rcases hrd with hrd | hrd | hrd <;> subst hrd <;> simp [mem_fullResetEvents]
  · by_cases hc : (fullResetDetails w).player && (fullResetDetails w).inventory
        && (fullResetDetails w).rooms <;> simp [hc]

/-- Claim C3, witness: the theorem applied to a world whose player-update
step raises, with the later steps still attempted. -/
theorem C3_no_step_halts_the_plan_witness :
    wPlayerExn.playerLookup = CallOutcome.response 200 "" ∧
    (Event.putPlayer 1 ∈ (full_game_reset 1 wPlayerExn).2 ∧
     Event.deleteInventory 1 ∈ (full_game_reset 1 wPlayerExn).2 ∧
     Event.postInteractionReset 1 ∈ (full_game_reset 1 wPlayerExn).2 ∧
     (∀ rd ∈ room_defaults, Event.putRoom rd.room_id ∈ (full_game_reset 1 wPlayerExn).2) ∧
     ∃ st msg d, (full_game_reset 1 wPlayerExn).1 =
       FullResetResponse.report st msg 1 d) :=
  ⟨rfl, C3_no_step_halts_the_plan 1 wPlayerExn "" rfl⟩

/-- Claim C9 (amended): when the player lookup returns 200 and the player
update and the enemy reset both return HTTP responses, the partial reset
answers the 200 success message whatever those response statuses are — they
are never inspected. -/
theorem C9_statuses_never_inspected (playerId : Nat) (p : PartialResetWorld)
    (t t1 t2 : String) (s1 s2 : Nat)
    (h : p.playerLookup = CallOutcome.response 200 t)
    (h1 : p.playerUpdate = CallOutcome.response s1 t1)
    (h2 : p.enemyReset = CallOutcome.response s2 t2) :
    (reset_character_progress playerId p).1 =
      PartialResetResponse.ok
        ("Progress reset for player " ++ toString playerId ++ ".") := by
  rw [reset_character_progress, h]
  simp [h1, h2]

/-- Claim C9, witness: the theorem applied to a world in which both calls
answer status 500, yet the endpoint still reports success. -/
theorem C9_statuses_never_inspected_witness :
    pBadStatuses.playerLookup = CallOutcome.response 200 "" ∧
    pBadStatuses.playerUpdate = CallOutcome.response 500 "fail" ∧
    pBadStatuses.enemyReset = CallOutcome.response 500 "fail" ∧
    (reset_character_progress 1 pBadStatuses).1 =
      PartialResetResponse.ok ("Progress reset for player " ++ toString 1 ++ ".") :=
  ⟨rfl, rfl, rfl,
   C9_statuses_never_inspected 1 pBadStatuses "" "fail" "fail" 500 500 rfl rfl rfl⟩

/-- Claim C9, counterexample to the claim as stated: if the player-update
call raises (e.g. a timeout) instead of returning a response, the exception
escapes the handler and the endpoint does not answer the 200 success
message. -/
theorem C9_counterexample :
    pUpdateExn.playerLookup = CallOutcome.response 200 "" ∧
    (reset_character_progress 1 pUpdateExn).1 =
      PartialResetResponse.unhandled "timed out" :=
  ⟨rfl, rfl⟩

/-- Failures of the full-plan steps are recorded in `reset_results`: the
step's flag (when the step has one) becomes false and a step-specific
message is appended to `errors`. -/
lemma fullResetDetails_records (w : FullResetWorld) :
    (∀ m, w.playerUpdate = CallOutcome.exn m →
      (fullResetDetails w).player = false ∧
      ("Player reset error: " ++ m) ∈ (fullResetDetails w).errors) ∧
    (∀ m, w.inventoryDelete = CallOutcome.exn m →
      (fullResetDetails w).inventory = false ∧
      ("Inventory reset error: " ++ m) ∈ (fullResetDetails w).errors) ∧
    (∀ m, w.interactionReset = CallOutcome.exn m →
      ("Player interaction reset error: " ++ m) ∈ (fullResetDetails w).errors) ∧
    (∀ rd ∈ room_defaults, ∀ m, w.roomUpdate rd.room_id = CallOutcome.exn m →
      (fullResetDetails w).rooms = false ∧
      ("Room " ++ toString rd.room_id ++ " reset error: " ++ m) ∈
        (fullResetDetails w).errors) := by
  refine ⟨?_, ?_, ?_, ?_⟩
  · intro m hm; simp [fullResetDetails, stepPlayerReset, hm]
  · intro m hm; simp [fullResetDetails, stepInventoryReset, hm]
  · intro m hm; simp [fullResetDetails, stepInteractionReset, hm]
  · intro rd hrd m hm
    simp only [room_defaults, List.mem_cons, List.not_mem_nil, or_false] at hrd
    rcases hrd with hrd | hrd | hrd <;> subst hrd <;>
      simp [fullResetDetails, stepRoomsReset_eq, resetOneRoom, hm]

/-- Claim C4 (amended): the full reset never contacts the enemy service —
only the partial reset issues the enemy-reset request (once its player
update has returned). -/
theorem C4_full_reset_never_calls_enemy (playerId : Nat) (w : FullResetWorld)
    (p : PartialResetWorld) (t t1 : String) (s1 : Nat)
    (hp : p.playerLookup = CallOutcome.response 200 t)
    (hu : p.playerUpdate = CallOutcome.response s1 t1) :
    Event.getEnemyReset ∉ (full_game_reset playerId w).2 ∧
    Event.getEnemyReset ∈ (reset_character_progress playerId p).2 := by
  constructor
  · cases hL : w.playerLookup with
    | exn m => simp [full_game_reset, hL]
    | response s tt =>
        by_cases hs : s = 200
        · subst hs
          rw [full_game_reset_ok playerId w tt hL]
          simp [mem_fullResetEvents]
        · rw [full_game_reset, hL]; simp [hs]
  · rw [reset_character_progress, hp]
    cases hE : p.enemyReset <;> simp [hu, hE, send_activity_log]

/-- Claim C4, witness: the theorem applied to the all-success worlds. -/
theorem C4_full_reset_never_calls_enemy_witness :
    pAllOk.playerLookup = CallOutcome.response 200 "" ∧
    pAllOk.playerUpdate = CallOutcome.response 200 "" ∧
    (Event.getEnemyReset ∉ (full_game_reset 1 wAllOk).2 ∧
     Event.getEnemyReset ∈ (reset_character_progress 1 pAllOk).2) :=
  ⟨rfl, rfl, C4_full_reset_never_calls_enemy 1 wAllOk pAllOk "" "" 200 rfl rfl⟩

/-- Claim C4, counterexample to the claim as stated: in a full reset where
every collaborator succeeds, the event trace contains no request to the
enemy service. -/
theorem C4_counterexample :
    wAllOk.playerLookup = CallOutcome.response 200 "" ∧
    Event.getEnemyReset ∉ (full_game_reset 1 wAllOk).2 :=
  ⟨rfl, by decide⟩

/-- Claim C5 (amended): every step of the full plan converts transport
errors, timeouts and bad statuses into recorded failure data while the
handler still finalizes with a 200 or 207 report — never a crash; in the
partial plan, an exception raised by the player-update or the enemy-reset
call is not caught and escapes the handler. -/
theorem C5_full_plan_catches_partial_plan_does_not (playerId : Nat)
    (w : FullResetWorld) (p : PartialResetWorld) (t tp : String)
    (h : w.playerLookup = CallOutcome.response 200 t)
    (hp : p.playerLookup = CallOutcome.response 200 tp) :
    ((full_game_reset playerId w).1.detailsOf = some (fullResetDetails w) ∧
     ((full_game_reset playerId w).1.statusCode = 200 ∨
      (full_game_reset playerId w).1.statusCode = 207) ∧
     (∀ m, w.playerUpdate = CallOutcome.exn m →
       (fullResetDetails w).player = false ∧
       ("Player reset error: " ++ m) ∈ (fullResetDetails w).errors) ∧
     (∀ m, w.inventoryDelete = CallOutcome.exn m →
       (fullResetDetails w).inventory = false ∧
       ("Inventory reset error: " ++ m) ∈ (fullResetDetails w).errors) ∧
     (∀ m, w.interactionReset = CallOutcome.exn m →
       ("Player interaction reset error: " ++ m) ∈ (fullResetDetails w).errors) ∧
     (∀ rd ∈ room_defaults, ∀ m, w.roomUpdate rd.room_id = CallOutcome.exn m →
       (fullResetDetails w).rooms = false ∧
       ("Room " ++ toString rd.room_id ++ " reset error: " ++ m) ∈
         (fullResetDetails w).errors)) ∧
    ((∀ m, p.playerUpdate = CallOutcome.exn m →
       (reset_character_progress playerId p).1 = PartialResetResponse.unhandled m) ∧
     (∀ s1 t1 m, p.playerUpdate = CallOutcome.response s1 t1 →
       p.enemyReset = CallOutcome.exn m →
       (reset_character_progress playerId p).1 = PartialResetResponse.unhandled m)) := by
  obtain ⟨r1, r2, r3, r4⟩ := fullResetDetails_records w
  refine ⟨⟨?_, ?_, r1, r2, r3, r4⟩, ?_, ?_⟩
  · rw [full_game_reset_ok playerId w t h]
    by_cases hc : (fullResetDetails w).player && (fullResetDetails w).inventory
        && (fullResetDetails w).rooms <;> simp [hc, FullResetResponse.detailsOf]
  · rw [full_game_reset_ok playerId w t h]
    by_cases hc : (fullResetDetails w).player && (fullResetDetails w).inventory
        && (fullResetDetails w).rooms <;> simp [hc, FullResetResponse.statusCode]
  · intro m hm
    rw [reset_character_progress, hp]; simp [hm]
  · intro s1 t1 m h1 h2
    rw [reset_character_progress, hp]; simp [h1, h2]

/-- Claim C5, witness: the theorem applied to a full-reset world whose
player update raises and a partial-reset world whose player update raises. -/
theorem C5_full_plan_catches_partial_plan_does_not_witness :
    wPlayerExn.playerLookup = CallOutcome.response 200 "" ∧
    pUpdateExn.playerLookup = CallOutcome.response 200 "" ∧
    (((full_game_reset 1 wPlayerExn).1.detailsOf = some (fullResetDetails wPlayerExn) ∧
      ((full_game_reset 1 wPlayerExn).1.statusCode = 200 ∨
       (full_game_reset 1 wPlayerExn).1.statusCode = 207) ∧
      (∀ m, wPlayerExn.playerUpdate = CallOutcome.exn m →
        (fullResetDetails wPlayerExn).player = false ∧
        ("Player reset error: " ++ m) ∈ (fullResetDetails wPlayerExn).errors) ∧
      (∀ m, wPlayerExn.inventoryDelete = CallOutcome.exn m →
        (fullResetDetails wPlayerExn).inventory = false ∧
        ("Inventory reset error: " ++ m) ∈ (fullResetDetails wPlayerExn).errors) ∧
      (∀ m, wPlayerExn.interactionReset = CallOutcome.exn m →
        ("Player interaction reset error: " ++ m) ∈ (fullResetDetails wPlayerExn).errors) ∧
      (∀ rd ∈ room_defaults, ∀ m, wPlayerExn.roomUpdate rd.room_id = CallOutcome.exn m →
        (fullResetDetails wPlayerExn).rooms = false ∧
        ("Room " ++ toString rd.room_id ++ " reset error: " ++ m) ∈
          (fullResetDetails wPlayerExn).errors)) ∧
     ((∀ m, pUpdateExn.playerUpdate = CallOutcome.exn m →
        (reset_character_progress 1 pUpdateExn).1 = PartialResetResponse.unhandled m) ∧
      (∀ s1 t1 m, pUpdateExn.playerUpdate = CallOutcome.response s1 t1 →
        pUpdateExn.enemyReset = CallOutcome.exn m →
        (reset_character_progress 1 pUpdateExn).1 = PartialResetResponse.unhandled m))) :=
  ⟨rfl, rfl,
   C5_full_plan_catches_partial_plan_does_not 1 wPlayerExn pUpdateExn "" "" rfl rfl⟩

/-- Claim C5, counterexample to the claim as stated: in the partial plan,
a transport error raised by the enemy-reset call is not converted into
failure data — it escapes the handler. -/
theorem C5_counterexample :
    pEnemyExn.playerLookup = CallOutcome.response 200 "" ∧
    pEnemyExn.playerUpdate = CallOutcome.response 200 "" ∧
    (reset_character_progress 1 pEnemyExn).1 =
      PartialResetResponse.unhandled "connection refused" :=
  ⟨rfl, rfl, rfl⟩

/-- Claim C6: in a full reset, an inventory delete answering 404 is
classified exactly like a 200: the `inventory` flag is true and no
inventory entry is appended to `errors`. -/
theorem C6_inventory_not_found_is_success (playerId : Nat)
    (w : FullResetWorld) (t tInv : String)
    (h : w.playerLookup = CallOutcome.response 200 t)
    (hInv : w.inventoryDelete = CallOutcome.response 404 tInv) :
    (full_game_reset playerId w).1.detailsOf = some (fullResetDetails w) ∧
    (fullResetDetails w).inventory = true ∧
    (fullResetDetails w).errors =
      (stepPlayerReset w.playerUpdate).2
        ++ stepInteractionReset w.interactionReset
        ++ (stepRoomsReset w.roomUpdate).2 ∧
    stepInventoryReset (CallOutcome.response 404 tInv) =
      stepInventoryReset (CallOutcome.response 200 tInv) := by
  refine ⟨?_, ?_, ?_, by simp [stepInventoryReset]⟩
  · rw [full_game_reset_ok playerId w t h]
    by_cases hc : (fullResetDetails w).player && (fullResetDetails w).inventory
        && (fullResetDetails w).rooms <;> simp [hc, FullResetResponse.detailsOf]
  · simp [fullResetDetails, stepInventoryReset, hInv]
  · simp [fullResetDetails, stepInventoryReset, hInv]

/-- Claim C6, witness: the theorem applied to a world whose inventory
delete answers 404 and whose other calls succeed. -/
theorem C6_inventory_not_found_is_success_witness :
    wInvMissing.playerLookup = CallOutcome.response 200 "" ∧
    wInvMissing.inventoryDelete = CallOutcome.response 404 "no inventory" ∧
    ((full_game_reset 1 wInvMissing).1.detailsOf = some (fullResetDetails wInvMissing) ∧
     (fullResetDetails wInvMissing).inventory = true ∧
     (fullResetDetails wInvMissing).errors =
       (stepPlayerReset wInvMissing.playerUpdate).2
         ++ stepInteractionReset wInvMissing.interactionReset
         ++ (stepRoomsReset wInvMissing.roomUpdate).2 ∧
     stepInventoryReset (CallOutcome.response 404 "no inventory") =
       stepInventoryReset (CallOutcome.response 200 "no inventory")) :=
  ⟨rfl, rfl,
   C6_inventory_not_found_is_success 1 wInvMissing "" "no inventory" rfl rfl⟩

/-- Claim C7: all three configured rooms are attempted whatever the
outcomes, the `rooms` flag is the conjunction of the three independent
per-room outcomes, and the room part of `errors` is the concatenation of
the three per-room error lists, each depending only on its own room's
call. -/
theorem C7_rooms_attempted_independently (playerId : Nat)
    (w : FullResetWorld) (t : String)
    (h : w.playerLookup = CallOutcome.response 200 t) :
    (∀ rd ∈ room_defaults, Event.putRoom rd.room_id ∈ (full_game_reset playerId w).2) ∧
    (full_game_reset playerId w).1.detailsOf = some (fullResetDetails w) ∧
    (fullResetDetails w).rooms =
      ((resetOneRoom 1 (w.roomUpdate 1)).1 && (resetOneRoom 2 (w.roomUpdate 2)).1
        && (resetOneRoom 3 (w.roomUpdate 3)).1) ∧
    (stepRoomsReset w.roomUpdate).2 =
      (resetOneRoom 1 (w.roomUpdate 1)).2 ++ (resetOneRoom 2 (w.roomUpdate 2)).2
        ++ (resetOneRoom 3 (w.roomUpdate 3)).2 ∧
    (fullResetDetails w).errors =
      (stepPlayerReset w.playerUpdate).2 ++ (stepInventoryReset w.inventoryDelete).2
        ++ stepInteractionReset w.interactionReset ++ (stepRoomsReset w.roomUpdate).2 := by
  refine ⟨?_, ?_, rfl, rfl, rfl⟩
  · intro rd hrd
    rw [full_game_reset_ok playerId w t h]
    simp only [room_defaults, List.mem_cons, List.not_mem_nil, or_false] at hrd
    rcases hrd with hrd | hrd | hrd <;> subst hrd <;> simp [mem_fullResetEvents]
  · rw [full_game_reset_ok playerId w t h]
    by_cases hc : (fullResetDetails w).player && (fullResetDetails w).inventory
        && (fullResetDetails w).rooms <;> simp [hc, FullResetResponse.detailsOf]

/-- Claim C7, witness: the theorem applied to a world where room 2 times
out while rooms 1 and 3 succeed. -/
theorem C7_rooms_attempted_independently_witness :
    wRoom2Fail.playerLookup = CallOutcome.response 200 "" ∧
    ((∀ rd ∈ room_defaults, Event.putRoom rd.room_id ∈ (full_game_reset 1 wRoom2Fail).2) ∧
     (full_game_reset 1 wRoom2Fail).1.detailsOf = some (fullResetDetails wRoom2Fail) ∧
     (fullResetDetails wRoom2Fail).rooms =
       ((resetOneRoom 1 (wRoom2Fail.roomUpdate 1)).1
         && (resetOneRoom 2 (wRoom2Fail.roomUpdate 2)).1
         && (resetOneRoom 3 (wRoom2Fail.roomUpdate 3)).1) ∧
     (stepRoomsReset wRoom2Fail.roomUpdate).2 =
       (resetOneRoom 1 (wRoom2Fail.roomUpdate 1)).2
         ++ (resetOneRoom 2 (wRoom2Fail.roomUpdate 2)).2
         ++ (resetOneRoom 3 (wRoom2Fail.roomUpdate 3)).2 ∧
     (fullResetDetails wRoom2Fail).errors =
       (stepPlayerReset wRoom2Fail.playerUpdate).2
         ++ (stepInventoryReset wRoom2Fail.inventoryDelete).2
         ++ stepInteractionReset wRoom2Fail.interactionReset
         ++ (stepRoomsReset wRoom2Fail.roomUpdate).2) :=
  ⟨rfl, C7_rooms_attempted_independently 1 wRoom2Fail "" rfl⟩

/-- Claim C8: the HTTP response of either endpoint is the same whether the
audit publish succeeds or fails — any failure inside `send_activity_log`
is swallowed and never reaches the orchestration outcome. -/
theorem C8_audit_failure_never_changes_response (playerId : Nat)
    (w : FullResetWorld) (p : PartialResetWorld) (b1 b2 : Bool) :
    (full_game_reset playerId { w with auditFails := b1 }).1 =
      (full_game_reset playerId { w with auditFails := b2 }).1 ∧
    (reset_character_progress playerId { p with auditFails := b1 }).1 =
      (reset_character_progress playerId { p with auditFails := b2 }).1 := by
  constructor
  · cases hL : w.playerLookup with
    | exn m => simp [full_game_reset, hL]
    | response s tt =>
        by_cases hs : s = 200
        · simp [full_game_reset, hL, hs, fullResetDetails]
          by_cases hc : ((stepPlayerReset w.playerUpdate).1 = true ∧
              (stepInventoryReset w.inventoryDelete).1 = true) ∧
              (stepRoomsReset w.roomUpdate).1 = true
          · rw [if_pos hc, if_pos hc]
          · rw [if_neg hc, if_neg hc]
        · simp [full_game_reset, hL, hs]
  · cases hL : p.playerLookup with
    | exn m => simp [reset_character_progress, hL]
    | response s tt =>
        by_cases hs : s = 200
        · cases hU : p.playerUpdate with
          | exn m => simp [reset_character_progress, hL, hs, hU]
          | response s1 t1 =>
              cases hE : p.enemyReset <;>
                simp [reset_character_progress, hL, hs, hU, hE]
        · simp [reset_character_progress, hL, hs]

/-- Claim C10: the interaction-history step is never an entry of
`reset_results` — the report's keys are fixed to `player`, `inventory`,
`rooms`, `errors` by `ResetDetails` — and replacing the interaction
outcome changes neither the HTTP status, which 200/207 branches on the
three flags alone, nor the flags; it moves only the interaction segment of
`errors`, which is empty when the step answers 200. -/
theorem C10_interaction_step_affects_only_errors (playerId : Nat)
    (w : FullResetWorld) (o : CallOutcome) (t : String)
    (h : w.playerLookup = CallOutcome.response 200 t) :
    (full_game_reset playerId w).1.statusCode =
      (full_game_reset playerId { w with interactionReset := o }).1.statusCode ∧
    (full_game_reset playerId w).1.detailsOf = some (fullResetDetails w) ∧
    (full_game_reset playerId { w with interactionReset := o }).1.detailsOf =
      some (fullResetDetails { w with interactionReset := o }) ∧
    (fullResetDetails { w with interactionReset := o }).player =
      (fullResetDetails w).player ∧
    (fullResetDetails { w with interactionReset := o }).inventory =
      (fullResetDetails w).inventory ∧
    (fullResetDetails { w with interactionReset := o }).rooms =
      (fullResetDetails w).rooms ∧
    (fullResetDetails w).errors =
      (stepPlayerReset w.playerUpdate).2 ++ (stepInventoryReset w.inventoryDelete).2
        ++ stepInteractionReset w.interactionReset ++ (stepRoomsReset w.roomUpdate).2 ∧
    (fullResetDetails { w with interactionReset := o }).errors =
      (stepPlayerReset w.playerUpdate).2 ++ (stepInventoryReset w.inventoryDelete).2
        ++ stepInteractionReset o ++ (stepRoomsReset w.roomUpdate).2 ∧
    (∀ t2, stepInteractionReset (CallOutcome.response 200 t2) = []) := by
  have h2 : ({ w with interactionReset := o } : FullResetWorld).playerLookup =
      CallOutcome.response 200 t := h
  refine ⟨?_, ?_, ?_, rfl, rfl, rfl, rfl, rfl, fun t2 => rfl⟩
  · rw [full_game_reset_ok playerId w t h,
      full_game_reset_ok playerId { w with interactionReset := o } t h2]
    by_cases hc : (stepPlayerReset w.playerUpdate).1
        && (stepInventoryReset w.inventoryDelete).1
        && (stepRoomsReset w.roomUpdate).1 <;>
      simp [fullResetDetails, hc, FullResetResponse.statusCode]
  · rw [full_game_reset_ok playerId w t h]
    by_cases hc : (fullResetDetails w).player && (fullResetDetails w).inventory
        && (fullResetDetails w).rooms <;> simp [hc, FullResetResponse.detailsOf]
  · rw [full_game_reset_ok playerId { w with interactionReset := o } t h2]
    by_cases hc : (fullResetDetails { w with interactionReset := o }).player
        && (fullResetDetails { w with interactionReset := o }).inventory
        && (fullResetDetails { w with interactionReset := o }).rooms <;>
      simp [hc, FullResetResponse.detailsOf]

/-- Claim C10, witness: the theorem applied to the world whose interaction
reset fails with status 500, compared against a successful interaction
reset. -/
theorem C10_interaction_step_affects_only_errors_witness :
    wInterFail.playerLookup = CallOutcome.response 200 "" ∧
    ((full_game_reset 1 wInterFail).1.statusCode =
       (full_game_reset 1 { wInterFail with
         interactionReset := CallOutcome.response 200 "" }).1.statusCode ∧
     (full_game_reset 1 wInterFail).1.detailsOf = some (fullResetDetails wInterFail) ∧
     (full_game_reset 1 { wInterFail with
        interactionReset := CallOutcome.response 200 "" }).1.detailsOf =
       some (fullResetDetails { wInterFail with
         interactionReset := CallOutcome.response 200 "" }) ∧
     (fullResetDetails { wInterFail with
        interactionReset := CallOutcome.response 200 "" }).player =
       (fullResetDetails wInterFail).player ∧
     (fullResetDetails { wInterFail with
        interactionReset := CallOutcome.response 200 "" }).inventory =
       (fullResetDetails wInterFail).inventory ∧
     (fullResetDetails { wInterFail with
        interactionReset := CallOutcome.response 200 "" }).rooms =
       (fullResetDetails wInterFail).rooms ∧
     (fullResetDetails wInterFail).errors =
       (stepPlayerReset wInterFail.playerUpdate).2
         ++ (stepInventoryReset wInterFail.inventoryDelete).2
         ++ stepInteractionReset wInterFail.interactionReset
         ++ (stepRoomsReset wInterFail.roomUpdate).2 ∧
     (fullResetDetails { wInterFail with
        interactionReset := CallOutcome.response 200 "" }).errors =
       (stepPlayerReset wInterFail.playerUpdate).2
         ++ (stepInventoryReset wInterFail.inventoryDelete).2
         ++ stepInteractionReset (CallOutcome.response 200 "")
         ++ (stepRoomsReset wInterFail.roomUpdate).2 ∧
     (∀ t2, stepInteractionReset (CallOutcome.response 200 t2) = [])) :=
  ⟨rfl, C10_interaction_step_affects_only_errors 1 wInterFail
    (CallOutcome.response 200 "") "" rfl⟩
